import Mathlib

/-!
Shallow embedding of the LMS front-end (student submission view in
`src/unnamed/part_000`, lecturer views in
`src/lms_frontend/src/components/Lecturer/LecturerCourses.js`).

JavaScript strings are modelled as `List Char`, JS numbers as `ℚ`
(no NaN arises in the modelled fragments except where noted), absent
object fields as `Option`, and the browser's local storage as an
explicit record.  Each handler is a pure function from the component
state (plus the network outcome, supplied as a parameter) to the new
state together with the list of network calls it issued.
-/

namespace LMS

/-! ### Fallback similarity matcher (`AssignmentSimilarityReport`) -/

/-- JS `\s` whitespace class, restricted to the ASCII whitespace
characters that can occur in the handled texts. -/
def isWS (c : Char) : Bool :=
  c = ' ' ∨ c = '\t' ∨ c = '\n' ∨ c = '\r' ∨ c = Char.ofNat 11 ∨ c = Char.ofNat 12

/-- Terminal punctuation recognised by the sentence splitter (`[.!?]`). -/
def isPunct (c : Char) : Bool :=
  c = '.' ∨ c = '!' ∨ c = '?'

/-- Worker for `splitSentences`: `prevPunct` records whether the previous
character was terminal punctuation; `acc = some cur` holds the current
segment (reversed) and `acc = none` means we are inside a separator
(a whitespace run whose first character was preceded by punctuation),
mirroring the left-to-right greedy matching of
`text.split(/(?<=[.!?])\s+/)`. -/
def splitAux (prevPunct : Bool) (acc : Option (List Char)) : List Char → List (List Char)
  | [] => [(acc.getD []).reverse]
  | c :: rest =>
    match acc with
    | some cur =>
      if isWS c ∧ prevPunct then
        cur.reverse :: splitAux false none rest
      else
        splitAux (isPunct c) (some (c :: cur)) rest
    | none =>
      if isWS c then
        splitAux false none rest
      else
        splitAux (isPunct c) (some [c]) rest

/-- `text.split(/(?<=[.!?])\s+/)`: split into sentence-like units at
whitespace runs preceded by `.`, `!` or `?`. -/
def splitSentences (text : List Char) : List (List Char) :=
  splitAux false (some []) text

/-- Number of index positions at which the two lists agree (the loop
`for i < shorter.length: if shorter[i] === longer[i] matches++`;
comparison stops at the end of the shorter list). -/
def countPosMatches : List Char → List Char → ℕ
  | a :: as, b :: bs => (if a = b then 1 else 0) + countPosMatches as bs
  | _, _ => 0

/-- `calculateStringSimilarity(str1, str2)` from
`LecturerCourses.js` lines 594-611: 0 when either string is empty,
1 when the strings are identical, otherwise the positional
character-match count divided by the longer string's length. -/
def calculateStringSimilarity (str1 str2 : List Char) : ℚ :=
  if str1 = [] ∨ str2 = [] then 0
  else if str1 = str2 then 1
  else
    let longer := if str1.length > str2.length then str1 else str2
    let shorter := if str1.length > str2.length then str2 else str1
    (countPosMatches shorter longer : ℚ) / (longer.length : ℚ)

/-- JS `Math.round`: round half toward positive infinity. -/
def jsRound (q : ℚ) : ℤ := ⌊q + 1/2⌋

/-- One entry of the `similarSegments` array built in
`processAndHighlightContent`. -/
structure SimilarSegment where
  text1 : List Char
  text2 : List Char
  text1Index : ℕ
  text2Index : ℕ
  similarity : ℤ
  deriving DecidableEq, Repr

/-- The double `forEach` loop of `processAndHighlightContent`
(lines 523-537): every ordered pair of units whose similarity is
strictly above `0.7` is recorded, with its percentage rounded. -/
def similarSegments (segs1 segs2 : List (List Char)) : List SimilarSegment :=
  (List.range segs1.length).flatMap fun i =>
    (List.range segs2.length).filterMap fun j =>
      let seg1 := segs1.getD i []
      let seg2 := segs2.getD j []
      let s := calculateStringSimilarity seg1 seg2
      if s > 7/10 then
        some ⟨seg1, seg2, i, j, jsRound (s * 100)⟩
      else
        none

/-- A rendered text segment (`{ text, isMatch, percentage }`). -/
structure TextSegment where
  text : List Char
  isMatch : Bool
  percentage : ℚ
  deriving DecidableEq, Repr

/-- Stable insertion by a numeric key (models the stable
`Array.prototype.sort` with comparator `a.key - b.key`). -/
def insertByKey (key : SimilarSegment → ℕ) (x : SimilarSegment) :
    List SimilarSegment → List SimilarSegment
  | [] => [x]
  | y :: ys => if key x < key y then x :: y :: ys else y :: insertByKey key x ys

/-- Stable sort by a numeric key. -/
def sortByKey (key : SimilarSegment → ℕ) : List SimilarSegment → List SimilarSegment
  | [] => []
  | x :: xs => insertByKey key x (sortByKey key xs)

/-- `processAndHighlightContent(text1, text2, similarityScore)`
(lines 513-591): split both texts into sentence units, record all
pairs above the similarity threshold, emit them sorted by position
in each text; if nothing was recorded but the aggregate score is
positive, emit the full texts as one matching pair carrying the
aggregate score. -/
def processAndHighlightContent (text1 text2 : List Char) (similarityScore : ℚ) :
    List TextSegment × List TextSegment :=
  let segments1 := splitSentences text1
  let segments2 := splitSentences text2
  let sims := similarSegments segments1 segments2
  let text1Segments :=
    (sortByKey (fun m => m.text1Index) sims).map
      fun m => TextSegment.mk m.text1 true (m.similarity : ℚ)
  let text2Segments :=
    (sortByKey (fun m => m.text2Index) sims).map
      fun m => TextSegment.mk m.text2 true (m.similarity : ℚ)
  if text1Segments = [] ∧ text2Segments = [] ∧ similarityScore > 0 then
    ([TextSegment.mk text1 true similarityScore],
     [TextSegment.mk text2 true similarityScore])
  else
    (text1Segments, text2Segments)

/-! ### Student submission view (`AssignmentDetail`, `src/unnamed/part_000`) -/

/-- JS truthiness of an optional string (absent and `""` are falsy). -/
def jsTruthyStr : Option (List Char) → Bool
  | none => false
  | some s => s ≠ []

/-- JS truthiness of an optional numeric id (absent and `0` are falsy),
as tested by `!submissionData.submission_id`. -/
def jsTruthyId : Option ℕ → Bool
  | none => false
  | some n => n ≠ 0

/-- ASCII decimal digit. -/
def isDigit (c : Char) : Bool := '0' ≤ c ∧ c ≤ '9'

/-- Numeric value of a digit list (most significant first). -/
def digitsToNat : List Char → ℕ :=
  fun ds => ds.foldl (fun acc c => 10 * acc + (c.toNat - '0'.toNat)) 0

/-- Value of the captured group `D1.D2` under JS `parseFloat`. -/
def parseFloatCapture (d1 d2 : List Char) : ℚ :=
  (digitsToNat d1 : ℚ) + (digitsToNat d2 : ℚ) / (10 : ℚ) ^ d2.length

/-- The literal part of the pattern `/Calculated similarity: (\d+\.\d+)%/`. -/
def calcSimLiteral : List Char := "Calculated similarity: ".data

/-- Strip an exact literal prefix. -/
def stripLiteral : List Char → List Char → Option (List Char)
  | [], s => some s
  | _ :: _, [] => none
  | l :: ls, c :: cs => if l = c then stripLiteral ls cs else none

/-- Try to match `Calculated similarity: (\d+\.\d+)%` at the start of `s`,
returning the captured integer and fraction digits.  `\d+` is greedy and
`.`/`%` are not digits, so the digit runs are exactly the maximal runs. -/
def tryMatchAt (s : List Char) : Option (List Char × List Char) :=
  match stripLiteral calcSimLiteral s with
  | none => none
  | some rest =>
    let d1 := rest.takeWhile isDigit
    let rest1 := rest.dropWhile isDigit
    if d1 = [] then none
    else
      match rest1 with
      | '.' :: rest2 =>
        let d2 := rest2.takeWhile isDigit
        let rest3 := rest2.dropWhile isDigit
        if d2 = [] then none
        else
          match rest3 with
          | '%' :: _ => some (d1, d2)
          | _ => none
      | _ => none

/-- `text.match(/Calculated similarity: (\d+\.\d+)%/)`: first match,
scanning start positions left to right. -/
def findCalcSim : List Char → Option (List Char × List Char)
  | [] => none
  | c :: rest =>
    match tryMatchAt (c :: rest) with
    | some r => some r
    | none => findCalcSim rest

/-- Body of a web-similarity response (`response.data`). -/
structure WebSimResponse where
  status : List Char
  web_similarity_score : Option ℚ
  similarity_score : Option ℚ
  analysis_summary : Option (List Char)
  report_url : Option (List Char)
  message : Option (List Char)
  deriving DecidableEq, Repr

/-- Score resolution of `handleCheckWebSimilarity` (lines 88-104 of
`src/unnamed/part_000`): the direct field, else the alternate field,
else a percentage extracted from the free-text summary. -/
def extractScore (d : WebSimResponse) : Option ℚ :=
  match d.web_similarity_score with
  | some s => some s
  | none =>
    match d.similarity_score with
    | some s => some s
    | none =>
      match d.analysis_summary with
      | some txt =>
        if txt ≠ [] then (findCalcSim txt).map fun p => parseFloatCapture p.1 p.2
        else none
      | none => none

/-- `url.split('/').pop()`: the part after the last `/`. -/
def lastUrlComponent (url : List Char) : List Char :=
  (url.splitOn '/').getLastD []

/-- The submission-data blob (`response.data.data`, also the JSON blob
persisted under `assignment_{id}_data`). -/
structure SubmissionData where
  submission_id : Option ℕ
  student_name : List Char
  file_name : List Char
  web_similarity_score : Option ℚ
  report_url : Option (List Char)
  report_filename : Option (List Char)
  deriving DecidableEq, Repr

/-- The two local-storage keys used by `AssignmentDetail` for the current
assignment id (`assignment_{id}_status` and `assignment_{id}_data`). -/
structure LocalStore where
  statusKey : Option (List Char)
  dataKey : Option SubmissionData
  deriving DecidableEq, Repr

/-- Component state of `AssignmentDetail`. -/
structure ADState where
  name : List Char
  file : Option (List Char)
  submitted : Bool
  loading : Bool
  checkingWebSimilarity : Bool
  error : List Char
  snackbarOpen : Bool
  similarityScore : Option ℚ
  submissionData : Option SubmissionData
  reportUrl : Option (List Char)
  reportFilename : Option (List Char)
  store : LocalStore
  deriving DecidableEq, Repr

/-- Network calls a handler can issue. -/
inductive NetCall where
  | webSimilarity (submissionId : ℕ)
  | submitAssignment
  | deleteSubmission (submissionId : ℕ)
  | deleteWebReport (filename : List Char)
  | gradeSubmission (submissionId : ℕ)
  deriving DecidableEq, Repr

/-- Outcome of an awaited axios call: a response body, or a rejection
carrying the optional `err.response.data.message`. -/
inductive WebSimOutcome where
  | respond (d : WebSimResponse)
  | reject (msg : Option (List Char))
  deriving DecidableEq, Repr

/-- `handleCheckWebSimilarity` (lines 63-156 of `src/unnamed/part_000`).
The network outcome is a parameter; the result is the new state and the
list of network calls issued. -/
def handleCheckWebSimilarity (s : ADState) (outcome : WebSimOutcome) :
    ADState × List NetCall :=
  if ¬ s.submitted then
    ({ s with error := "Please submit your assignment first before checking web similarity.".data }, [])
  else
    match s.submissionData with
    | none =>
      ({ s with error := "Submission data is incomplete. Please try submitting again.".data }, [])
    | some sd =>
      if ¬ jsTruthyId sd.submission_id then
        ({ s with error := "Submission data is incomplete. Please try submitting again.".data }, [])
      else if s.similarityScore ≠ none ∧ jsTruthyStr s.reportUrl then
        ({ s with snackbarOpen := true }, [])
      else
        let calls := [NetCall.webSimilarity (sd.submission_id.getD 0)]
        let s0 := { s with checkingWebSimilarity := true, error := [] }
        let s9 :=
          match outcome with
          | .reject msg =>
            { s0 with error := msg.getD "Failed to check web similarity. Please try again.".data }
          | .respond d =>
            if d.status = "success".data then
              let s1 :=
                match extractScore d with
                | some score =>
                  let s2 := { s0 with similarityScore := some score, snackbarOpen := true }
                  let updatedData : SubmissionData :=
                    { sd with
                      web_similarity_score := some score
                      report_url := if jsTruthyStr d.report_url then d.report_url else none
                      report_filename :=
                        if jsTruthyStr d.report_url then
                          some (lastUrlComponent (d.report_url.getD []))
                        else none }
                  { s2 with
                    store := { s2.store with dataKey := some updatedData }
                    submissionData := some updatedData }
                | none =>
                  { s0 with error := "Could not determine similarity score from the response".data }
              if jsTruthyStr d.report_url then
                { s1 with
                  reportUrl := some ("http://127.0.0.1:8000".data ++ d.report_url.getD [])
                  reportFilename := some (lastUrlComponent (d.report_url.getD [])) }
              else s1
            else
              { s0 with error := d.message.getD "An error occurred during web similarity check.".data }
        ({ s9 with checkingWebSimilarity := false }, calls)

/-- Body of a submit response (`response.data`). -/
structure SubmitResponse where
  status : List Char
  data : Option SubmissionData
  message : Option (List Char)
  deriving DecidableEq, Repr

/-- Outcome of the submit call. -/
inductive SubmitOutcome where
  | respond (d : SubmitResponse)
  | reject (msg : Option (List Char))
  deriving DecidableEq, Repr

/-- `handleSubmit` (lines 158-222 of `src/unnamed/part_000`): validate
name and file before any network call, then POST and either persist the
returned record and switch to the submitted view or surface a message. -/
def handleSubmit (s : ADState) (outcome : SubmitOutcome) : ADState × List NetCall :=
  if s.name = [] then
    ({ s with error := "Please enter your name.".data }, [])
  else if s.file = none then
    ({ s with error := "Please upload a file before submitting.".data }, [])
  else
    let calls := [NetCall.submitAssignment]
    let s0 := { s with loading := true, error := [] }
    let s9 :=
      match outcome with
      | .reject msg =>
        { s0 with
          error := msg.getD "An error occurred while submitting your assignment. Please try again.".data }
      | .respond d =>
        if d.status = "success".data then
          let s1 := { s0 with store := { s0.store with statusKey := some "submitted".data } }
          let s2 :=
            match d.data with
            | some rec =>
              { s1 with
                store := { s1.store with dataKey := some rec }
                submissionData := some rec
                similarityScore := none }
            | none => s1
          { s2 with submitted := true, snackbarOpen := true }
        else
          { s0 with error := d.message.getD "An error occurred during submission.".data }
    ({ s9 with loading := false }, calls)

/-- Outcome of the delete-submission call. -/
inductive DeleteOutcome where
  | respond (status : List Char) (msg : Option (List Char))
  | reject (msg : Option (List Char))
  deriving DecidableEq, Repr

/-- The local cleanup block repeated in `handleRemove`: clear both
persisted keys and reset all submission-related component state. -/
def clearLocalSubmission (s : ADState) : ADState :=
  { s with
    store := { statusKey := none, dataKey := none }
    submitted := false
    submissionData := none
    similarityScore := none
    reportUrl := none
    reportFilename := none
    file := none
    name := [] }

/-- `handleRemove` (lines 224-291 of `src/unnamed/part_000`).  With a
valid submission id it issues the delete call; on a success response it
best-effort deletes the report and clears local state, on a rejection it
surfaces a message and still clears local state, and on a non-success
response it only surfaces a message.  Without a submission id it clears
local state directly. -/
def handleRemove (s : ADState) (outcome : DeleteOutcome) : ADState × List NetCall :=
  let sd? := s.submissionData
  match sd? with
  | some sd =>
    if jsTruthyId sd.submission_id then
      let s0 := { s with loading := true, error := [] }
      let calls := [NetCall.deleteSubmission (sd.submission_id.getD 0)]
      let (s9, calls9) :=
        match outcome with
        | .respond st msg =>
          if st = "success".data then
            let reportCalls :=
              if jsTruthyStr s.reportFilename then
                [NetCall.deleteWebReport (s.reportFilename.getD [])]
              else []
            ({ clearLocalSubmission s0 with snackbarOpen := true }, calls ++ reportCalls)
          else
            ({ s0 with
               error := msg.getD "Failed to remove submission. Please try again.".data }, calls)
        | .reject msg =>
          (clearLocalSubmission
            { s0 with
              error := msg.getD "An error occurred while removing your submission. Please try again.".data },
           calls)
      ({ s9 with loading := false }, calls9)
    else
      (clearLocalSubmission s, [])
  | none =>
    (clearLocalSubmission s, [])

/-! ### Lecturer grading view (`LecturerAssignmentView`) -/

/-- One entry of the lecturer's submissions list. -/
structure Submission where
  id : ℕ
  student_name : List Char
  file : List Char
  submitted_at : List Char
  grade : Option ℤ
  feedback : Option (List Char)
  status : List Char
  web_similarity_score : Option ℚ
  deriving DecidableEq, Repr

/-- JS `parseInt(s)` (radix 10, or 16 after an `0x`/`0X` prefix):
trim leading whitespace, optional sign, then the maximal digit run;
`none` models `NaN`. -/
def jsParseInt (s : List Char) : Option ℤ :=
  let t := s.dropWhile isWS
  let (sign, t1) : ℤ × List Char :=
    match t with
    | '-' :: r => (-1, r)
    | '+' :: r => (1, r)
    | _ => (1, t)
  match t1 with
  | '0' :: x :: r =>
    if x = 'x' ∨ x = 'X' then
      let hex := r.takeWhile fun c =>
        ('0' ≤ c ∧ c ≤ '9') ∨ ('a' ≤ c ∧ c ≤ 'f') ∨ ('A' ≤ c ∧ c ≤ 'F')
      if hex = [] then none
      else some (sign * (hex.foldl (fun acc c =>
        16 * acc + (if '0' ≤ c ∧ c ≤ '9' then c.toNat - '0'.toNat
                    else if 'a' ≤ c ∧ c ≤ 'f' then c.toNat - 'a'.toNat + 10
                    else c.toNat - 'A'.toNat + 10)) 0 : ℕ))
    else
      some (sign * (digitsToNat (('0' :: x :: r).takeWhile isDigit) : ℕ))
  | _ =>
    let ds := t1.takeWhile isDigit
    if ds = [] then none else some (sign * (digitsToNat ds : ℕ))

/-- The optimistic local patch performed by `handleGradeSubmission`
(lines 201-205 of `LecturerCourses.js`): map over the list, rewriting
entries whose id matches. -/
def gradePatch (submissionId : ℕ) (grade : ℤ) (feedback : List Char)
    (subs : List Submission) : List Submission :=
  subs.map fun sub =>
    if sub.id = submissionId then
      { sub with grade := some grade, feedback := some feedback, status := "graded".data }
    else sub

/-- `handleGradeSubmission` (lines 193-210): POST the grade, then either
apply the optimistic patch or alert.  Returns (alert message, new list);
the backend call is always issued. -/
def handleGradeSubmission (submissionId : ℕ) (grade : ℤ) (feedback : List Char)
    (subs : List Submission) (serverOk : Bool) :
    Option (List Char) × List Submission × List NetCall :=
  if serverOk then
    (none, gradePatch submissionId grade feedback subs, [NetCall.gradeSubmission submissionId])
  else
    (some "Failed to grade submission. Please try again.".data, subs,
      [NetCall.gradeSubmission submissionId])

/-- Result of the grade-button click. -/
structure GradeClickResult where
  alert : Option (List Char)
  backendCalled : Bool
  submissions : List Submission
  deriving DecidableEq, Repr

/-- The grade-button `onClick` handler (lines 299-312 of
`LecturerCourses.js`): two prompts (cancel aborts silently), then
`parseInt` validation against 0..100, then `handleGradeSubmission`. -/
def gradeOnClick (gradeInput feedbackInput : Option (List Char)) (submissionId : ℕ)
    (subs : List Submission) (serverOk : Bool) : GradeClickResult :=
  match gradeInput with
  | none => ⟨none, false, subs⟩
  | some g =>
    match feedbackInput with
    | none => ⟨none, false, subs⟩
    | some f =>
      match jsParseInt g with
      | none => ⟨some "Please enter a valid grade between 0 and 100".data, false, subs⟩
      | some numericGrade =>
        if numericGrade < 0 ∨ numericGrade > 100 then
          ⟨some "Please enter a valid grade between 0 and 100".data, false, subs⟩
        else
          let (alert, subs1, _) := handleGradeSubmission submissionId numericGrade f subs serverOk
          ⟨alert, true, subs1⟩

/-! ### Comparison workspace results filter -/

/-- One comparison result as consumed by `filterResults`; only the three
possible similarity fields matter. -/
structure CompResult where
  web_similarity_score : Option ℚ
  similarity_score : Option ℚ
  similarity : Option ℚ
  deriving DecidableEq, Repr

/-- JS `a || b` on an optional number: keep `a` only when present and
truthy (nonzero). -/
def jsOrNum (a : Option ℚ) (b : ℚ) : ℚ :=
  match a with
  | some v => if v ≠ 0 then v else b
  | none => b

/-- The score used by `filterResults` (lines 1553-1556 of
`LecturerCourses.js`): `result.web_similarity_score ||
result.similarity_score || result.similarity || 0`. -/
def effectiveScore (r : CompResult) : ℚ :=
  jsOrNum r.web_similarity_score (jsOrNum r.similarity_score (jsOrNum r.similarity 0))

/-- `filterResults(results)` (lines 1550-1559): `[]` when the list is
absent, else keep the rows whose effective score is `≥ threshold`. -/
def filterResults (threshold : ℚ) (results : Option (List CompResult)) : List CompResult :=
  match results with
  | none => []
  | some rs => rs.filter fun r => effectiveScore r ≥ threshold

/-- Modelled from the spec: the score formula the claim attributes to the
filter, `max(r.web_similarity_score, r.similarity_score, r.similarity, 0)`
with absent fields dropped from the maximum. -/
def specMaxScore (r : CompResult) : ℚ :=
  max (max (max (r.web_similarity_score.getD 0) (r.similarity_score.getD 0))
    (r.similarity.getD 0)) 0

/-- The local submission state is fully cleared: both persisted keys
removed and every submission-related piece of component state reset
(the post-state of `clearLocalSubmission`). -/
def localSubmissionCleared (r : ADState) : Prop :=
  r.store.statusKey = none ∧ r.store.dataKey = none ∧ r.submitted = false ∧
  r.submissionData = none ∧ r.similarityScore = none ∧ r.reportUrl = none ∧
  r.reportFilename = none ∧ r.file = none ∧ r.name = []

/-! ## Lemmas about the fallback matcher -/

theorem countPosMatches_nil_left (b : List Char) : countPosMatches [] b = 0 := by
  cases b <;> rfl

theorem countPosMatches_nil_right (a : List Char) : countPosMatches a [] = 0 := by
  cases a <;> rfl

theorem countPosMatches_comm : ∀ a b : List Char, countPosMatches a b = countPosMatches b a
  | [], b => by rw [countPosMatches_nil_left, countPosMatches_nil_right]
  | a :: as, [] => by rw [countPosMatches_nil_left, countPosMatches_nil_right]
  | a :: as, b :: bs => by
    simp only [countPosMatches, countPosMatches_comm as bs, eq_comm]

theorem countPosMatches_self : ∀ a : List Char, countPosMatches a a = a.length
  | [] => rfl
  | c :: cs => by simp [countPosMatches, countPosMatches_self cs, Nat.add_comm]

theorem countPosMatches_le_left : ∀ a b : List Char, countPosMatches a b ≤ a.length
  | [], b => by simp [countPosMatches_nil_left]
  | a :: as, [] => by simp [countPosMatches_nil_right]
  | a :: as, b :: bs => by
    have ih := countPosMatches_le_left as bs
    simp only [countPosMatches, List.length_cons]
    split <;> omega

theorem countPosMatches_le_right (a b : List Char) : countPosMatches a b ≤ b.length := by
  rw [countPosMatches_comm]; exact countPosMatches_le_left b a

/-- The similarity function computes exactly the positional-match count
divided by the longer length (the special-case branches of the source
agree with the general formula). -/
theorem calculateStringSimilarity_eq_ratio (s1 s2 : List Char) :
    calculateStringSimilarity s1 s2 =
      (countPosMatches s1 s2 : ℚ) / ((max s1.length s2.length : ℕ) : ℚ) := by
  by_cases h : s1 = [] ∨ s2 = []
  · rw [calculateStringSimilarity, if_pos h]
    rcases h with h | h
    · subst h; rw [countPosMatches_nil_left]; simp
    · subst h; rw [countPosMatches_nil_right]; simp
  · push_neg at h
    obtain ⟨h1, h2⟩ := h
    rw [calculateStringSimilarity, if_neg (by tauto)]
    by_cases he : s1 = s2
    · subst he
      rw [if_pos rfl, countPosMatches_self, Nat.max_self]
      have hlen : (0 : ℚ) < (s1.length : ℚ) := by
        exact_mod_cast Nat.pos_of_ne_zero (fun hc => h1 (List.length_eq_zero.mp hc))
      field_simp
    · rw [if_neg he]
      by_cases hl : s1.length > s2.length
      · simp only [hl, if_true]
        rw [countPosMatches_comm, Nat.max_eq_left (Nat.le_of_lt hl)]
      · simp only [hl, if_false]
        rw [Nat.max_eq_right (Nat.le_of_not_lt hl)]

/-- Membership in the recorded pair list, characterised by indices and
the similarity threshold. -/
theorem mem_similarSegments {segs1 segs2 : List (List Char)} {m : SimilarSegment} :
    m ∈ similarSegments segs1 segs2 ↔
      ∃ i, i < segs1.length ∧ ∃ j, j < segs2.length ∧
        calculateStringSimilarity (segs1.getD i []) (segs2.getD j []) > 7/10 ∧
        m = ⟨segs1.getD i [], segs2.getD j [], i, j,
             jsRound (calculateStringSimilarity (segs1.getD i []) (segs2.getD j []) * 100)⟩ := by
  simp only [similarSegments, List.mem_flatMap, List.mem_filterMap, List.mem_range]
  constructor
  · rintro ⟨i, hi, j, hj, hm⟩
    by_cases hc : calculateStringSimilarity (segs1.getD i []) (segs2.getD j []) > 7/10
    · rw [if_pos hc] at hm
      exact ⟨i, hi, j, hj, hc, (Option.some_inj.mp hm).symm⟩
    · rw [if_neg hc] at hm
      exact absurd hm (Option.some_ne_none _).symm
  · rintro ⟨i, hi, j, hj, hc, hm⟩
    exact ⟨i, hi, j, hj, by rw [if_pos hc, hm]⟩

theorem mem_insertByKey {key : SimilarSegment → ℕ} {x y : SimilarSegment} :
    ∀ {l : List SimilarSegment}, y ∈ insertByKey key x l ↔ y = x ∨ y ∈ l := by
  intro l
  induction l with
  | nil => simp [insertByKey]
  | cons z zs ih =>
    simp only [insertByKey]
    split
    · simp
    · simp only [List.mem_cons, ih]
      tauto

theorem mem_sortByKey {key : SimilarSegment → ℕ} {y : SimilarSegment} :
    ∀ {l : List SimilarSegment}, y ∈ sortByKey key l ↔ y ∈ l := by
  intro l
  induction l with
  | nil => simp [sortByKey]
  | cons z zs ih => simp [sortByKey, mem_insertByKey, ih]

theorem insertByKey_ne_nil (key : SimilarSegment → ℕ) (x : SimilarSegment) :
    ∀ l : List SimilarSegment, insertByKey key x l ≠ []
  | [] => by simp [insertByKey]
  | y :: ys => by
    simp only [insertByKey]
    split <;> simp

theorem sortByKey_eq_nil_iff {key : SimilarSegment → ℕ} :
    ∀ {l : List SimilarSegment}, sortByKey key l = [] ↔ l = []
  | [] => by simp [sortByKey]
  | x :: xs => by
    simp only [sortByKey]
    exact ⟨fun h => absurd h (insertByKey_ne_nil _ _ _), fun h => by cases h⟩

/-- `Math.round(1 * 100) = 100`. -/
theorem jsRound_hundred : jsRound (1 * 100) = 100 := by
  norm_num [jsRound]

/-! ## Claim theorems: fallback matcher -/

/-- C9: `calculateStringSimilarity` is total and always returns a value
in `[0, 1]`; an empty input on either side yields `0`, and in particular
two empty strings yield `0`, not `1` — so the division by the longer
length never divides by zero. -/
theorem claimC9_similarity_total_unit_interval :
    ∀ s1 s2 : List Char,
      0 ≤ calculateStringSimilarity s1 s2 ∧
      calculateStringSimilarity s1 s2 ≤ 1 ∧
      calculateStringSimilarity [] s2 = 0 ∧
      calculateStringSimilarity s1 [] = 0 ∧
      calculateStringSimilarity [] [] = 0 := by
  intro s1 s2
  refine ⟨?_, ?_, ?_, ?_, ?_⟩
  · rw [calculateStringSimilarity_eq_ratio]
    positivity
  · rw [calculateStringSimilarity_eq_ratio]
    rcases Nat.eq_zero_or_pos (max s1.length s2.length) with h | h
    · simp [h]
    · apply div_le_one_of_le₀
      · exact_mod_cast Nat.le_trans (countPosMatches_le_left s1 s2) (Nat.le_max_left _ _)
      · positivity
  · rw [calculateStringSimilarity_eq_ratio, countPosMatches_nil_left]; simp
  · rw [calculateStringSimilarity_eq_ratio, countPosMatches_nil_right]; simp
  · rw [calculateStringSimilarity_eq_ratio, countPosMatches_nil_left]; simp

/-- C5: the matcher's ratio for an ordered pair of units is the count of
positions (over indices of the shorter unit) with equal characters,
divided by the longer unit's length; a pair is recorded exactly when
this ratio is strictly above 0.7; and for two identical texts every
nonempty sentence unit pairs with itself at ratio 1 and is emitted
marked as a match (at percentage 100). -/
theorem claimC5_matcher_ratio_threshold_identity :
    (∀ s1 s2 : List Char,
      calculateStringSimilarity s1 s2 =
        (countPosMatches s1 s2 : ℚ) / ((max s1.length s2.length : ℕ) : ℚ))
    ∧ (∀ segs1 segs2 : List (List Char), ∀ i j : ℕ,
        i < segs1.length → j < segs2.length →
        ((∃ m ∈ similarSegments segs1 segs2, m.text1Index = i ∧ m.text2Index = j) ↔
          (countPosMatches (segs1.getD i []) (segs2.getD j []) : ℚ) /
            ((max (segs1.getD i []).length (segs2.getD j []).length : ℕ) : ℚ) > 7/10))
    ∧ (∀ t : List Char, ∀ i : ℕ, i < (splitSentences t).length →
        (splitSentences t).getD i [] ≠ [] →
        calculateStringSimilarity ((splitSentences t).getD i []) ((splitSentences t).getD i []) = 1
        ∧ (⟨(splitSentences t).getD i [], (splitSentences t).getD i [], i, i, 100⟩ : SimilarSegment)
            ∈ similarSegments (splitSentences t) (splitSentences t)
        ∧ ∀ score : ℚ,
            (⟨(splitSentences t).getD i [], true, 100⟩ : TextSegment)
              ∈ (processAndHighlightContent t t score).1) := by
  refine ⟨calculateStringSimilarity_eq_ratio, ?_, ?_⟩
  · intro segs1 segs2 i j hi hj
    constructor
    · rintro ⟨m, hm, hti, htj⟩
      rw [mem_similarSegments] at hm
      obtain ⟨i', hi', j', hj', hgt, heq⟩ := hm
      subst heq
      simp only at hti htj
      subst hti; subst htj
      rw [← calculateStringSimilarity_eq_ratio]
      exact hgt
    · intro hgt
      rw [← calculateStringSimilarity_eq_ratio] at hgt
      exact ⟨_, mem_similarSegments.mpr ⟨i, hi, j, hj, hgt, rfl⟩, rfl, rfl⟩
  · intro t i hi hne
    have hsim : calculateStringSimilarity ((splitSentences t).getD i [])
        ((splitSentences t).getD i []) = 1 := by
      rw [calculateStringSimilarity, if_neg (by simp only [or_self]; exact hne), if_pos rfl]
    have hmem : (⟨(splitSentences t).getD i [], (splitSentences t).getD i [], i, i, 100⟩ :
        SimilarSegment) ∈ similarSegments (splitSentences t) (splitSentences t) := by
      rw [mem_similarSegments]
      refine ⟨i, hi, i, hi, by rw [hsim]; norm_num, ?_⟩
      rw [hsim, jsRound_hundred]
    refine ⟨hsim, hmem, ?_⟩
    intro score
    have hne2 : similarSegments (splitSentences t) (splitSentences t) ≠ [] :=
      List.ne_nil_of_mem hmem
    simp only [processAndHighlightContent]
    rw [if_neg]
    · refine List.mem_map.mpr ⟨_, mem_sortByKey.mpr hmem, ?_⟩
      norm_num
    · rintro ⟨h1, -, -⟩
      exact hne2 (sortByKey_eq_nil_iff.mp (List.map_eq_nil_iff.mp h1))

/-- Witness for C5 at the concrete text `"ab"` (a single unit). -/
theorem claimC5_matcher_witness :
    calculateStringSimilarity ((splitSentences "ab".data).getD 0 [])
        ((splitSentences "ab".data).getD 0 []) = 1
    ∧ (⟨(splitSentences "ab".data).getD 0 [], (splitSentences "ab".data).getD 0 [], 0, 0, 100⟩ :
        SimilarSegment) ∈ similarSegments (splitSentences "ab".data) (splitSentences "ab".data)
    ∧ (⟨(splitSentences "ab".data).getD 0 [], true, 100⟩ : TextSegment)
        ∈ (processAndHighlightContent "ab".data "ab".data 50).1 :=
  have h := claimC5_matcher_ratio_threshold_identity.2.2 "ab".data 0 (by decide) (by decide)
  ⟨h.1, h.2.1, h.2.2 50⟩

/-- C6: when no ordered pair of units clears the 0.7 threshold and the
aggregate score is nonzero (scores are nonnegative), the matcher emits
exactly one full-text segment per side, marked as a match and carrying
the aggregate score. -/
theorem claimC6_no_match_fallback_full_texts (t1 t2 : List Char) (score : ℚ)
    (hno : ∀ u1 ∈ splitSentences t1, ∀ u2 ∈ splitSentences t2,
        calculateStringSimilarity u1 u2 ≤ 7/10)
    (h0 : 0 ≤ score) (hz : score ≠ 0) :
    processAndHighlightContent t1 t2 score =
      ([⟨t1, true, score⟩], [⟨t2, true, score⟩]) := by
  have hsims : similarSegments (splitSentences t1) (splitSentences t2) = [] := by
    rcases h : similarSegments (splitSentences t1) (splitSentences t2) with _ | ⟨m, ms⟩
    · rfl
    · exfalso
      have hm : m ∈ similarSegments (splitSentences t1) (splitSentences t2) := by
        rw [h]; exact List.mem_cons_self _ _
      rw [mem_similarSegments] at hm
      obtain ⟨i, hi, j, hj, hgt, -⟩ := hm
      have h1 : (splitSentences t1).getD i [] ∈ splitSentences t1 := by
        rw [List.getD_eq_getElem _ _ hi]; exact List.getElem_mem _
      have h2 : (splitSentences t2).getD j [] ∈ splitSentences t2 := by
        rw [List.getD_eq_getElem _ _ hj]; exact List.getElem_mem _
      exact absurd hgt (not_lt.mpr (hno _ h1 _ h2))
  have hpos : (0:ℚ) < score := lt_of_le_of_ne h0 (Ne.symm hz)
  simp only [processAndHighlightContent, hsims]
  simp [sortByKey, hpos]

/-- Witness for C6 at the concrete texts `"ab"` and `"xy"`, score 50. -/
theorem claimC6_no_match_witness :
    processAndHighlightContent "ab".data "xy".data 50 =
      ([⟨"ab".data, true, 50⟩], [⟨"xy".data, true, 50⟩]) :=
  claimC6_no_match_fallback_full_texts "ab".data "xy".data 50
    (by
      have h1 : splitSentences "ab".data = [['a', 'b']] := by decide
      have h2 : splitSentences "xy".data = [['x', 'y']] := by decide
      rw [h1, h2]
      intro u1 hu1 u2 hu2
      simp only [List.mem_singleton] at hu1 hu2
      subst hu1; subst hu2
      simp +decide [calculateStringSimilarity, countPosMatches]
      norm_num)
    (by norm_num) (by norm_num)

/-! ## Claim theorems: student submission view -/

/-- C8: submitting with an empty name or no selected file issues no
network call, surfaces a validation message, and leaves the view in the
unsubmitted state. -/
theorem claimC8_submit_validation_no_network (s : ADState) (outcome : SubmitOutcome)
    (h : s.name = [] ∨ s.file = none) (hsub : s.submitted = false) :
    (handleSubmit s outcome).2 = []
    ∧ (handleSubmit s outcome).1.error ≠ []
    ∧ (handleSubmit s outcome).1.submitted = false := by
  by_cases hn : s.name = []
  · have e : handleSubmit s outcome =
        ({ s with error := "Please enter your name.".data }, []) := by
      simp [handleSubmit, hn]
    rw [e]
    exact ⟨rfl, by show "Please enter your name.".data ≠ ([] : List Char); decide, hsub⟩
  · have hf : s.file = none := h.resolve_left hn
    have e : handleSubmit s outcome =
        ({ s with error := "Please upload a file before submitting.".data }, []) := by
      simp [handleSubmit, hn, hf]
    rw [e]
    exact ⟨rfl, by show "Please upload a file before submitting.".data ≠ ([] : List Char); decide,
      hsub⟩

/-- Witness for C8: a fresh unsubmitted state with empty name and no
file, against a rejecting network (which is never reached). -/
theorem claimC8_submit_validation_witness :
    (handleSubmit ⟨[], none, false, false, false, [], false, none, none, none, none,
        ⟨none, none⟩⟩ (.reject none)).2 = []
    ∧ (handleSubmit ⟨[], none, false, false, false, [], false, none, none, none, none,
        ⟨none, none⟩⟩ (.reject none)).1.error ≠ []
    ∧ (handleSubmit ⟨[], none, false, false, false, [], false, none, none, none, none,
        ⟨none, none⟩⟩ (.reject none)).1.submitted = false :=
  claimC8_submit_validation_no_network _ _ (Or.inl rfl) rfl

/-- C3 counterexample: a submitted state with a cached similarity score
but no cached report URL still issues the web-similarity network call,
so a cached score alone does not make the check action a local no-op. -/
theorem claimC3_cached_score_alone_still_calls :
    (handleCheckWebSimilarity
        ⟨"Alice".data, none, true, false, false, [], false, some 50,
         some ⟨some 55, "Alice".data, "essay.txt".data, some 50, none, none⟩,
         none, none, ⟨some "submitted".data,
           some ⟨some 55, "Alice".data, "essay.txt".data, some 50, none, none⟩⟩⟩
        (.respond ⟨"success".data, some 50, none, none, none, none⟩)).2 =
      [NetCall.webSimilarity 55] := by
  rfl

/-- C3 as amended: when both the similarity score and the report URL are
cached, the check action performs zero network calls and only opens the
snackbar that reveals the cached value. -/
theorem claimC3_cached_score_and_report_no_network (s : ADState) (outcome : WebSimOutcome)
    (sd : SubmissionData)
    (hsub : s.submitted = true) (hsd : s.submissionData = some sd)
    (hid : jsTruthyId sd.submission_id = true)
    (hscore : s.similarityScore ≠ none)
    (hurl : jsTruthyStr s.reportUrl = true) :
    handleCheckWebSimilarity s outcome = ({ s with snackbarOpen := true }, []) := by
  simp [handleCheckWebSimilarity, hsub, hsd, hid, hscore, hurl]

/-- Witness for C3 (amended): a state with both score and report URL
cached; the rejecting network outcome is never consulted. -/
theorem claimC3_cached_no_network_witness :
    handleCheckWebSimilarity
        ⟨"Alice".data, none, true, false, false, [], false, some 50,
         some ⟨some 55, "Alice".data, "essay.txt".data, some 50,
           some "/reports/55.pdf".data, some "55.pdf".data⟩,
         some "http://127.0.0.1:8000/reports/55.pdf".data, some "55.pdf".data,
         ⟨some "submitted".data, none⟩⟩
        (.reject none) =
      ({ name := "Alice".data, file := none, submitted := true, loading := false,
         checkingWebSimilarity := false, error := [], snackbarOpen := true,
         similarityScore := some 50,
         submissionData := some ⟨some 55, "Alice".data, "essay.txt".data, some 50,
           some "/reports/55.pdf".data, some "55.pdf".data⟩,
         reportUrl := some "http://127.0.0.1:8000/reports/55.pdf".data,
         reportFilename := some "55.pdf".data,
         store := ⟨some "submitted".data, none⟩ }, []) :=
  claimC3_cached_score_and_report_no_network _ (.reject none) _ rfl rfl (by decide)
    (by decide) (by decide)

/-- C4: score resolution precedence — the direct field wins, else the
alternate field, else the percentage embedded in the free-text summary;
on the concrete success response with summary text
`"The analysis finished. Calculated similarity: 42.5% overall."` and
neither direct field, both the extractor and the full check handler
resolve the score to exactly 42.5. -/
theorem claimC4_score_resolution_precedence :
    (∀ (d : WebSimResponse) (v : ℚ), d.web_similarity_score = some v →
      extractScore d = some v)
    ∧ (∀ (d : WebSimResponse) (v : ℚ), d.web_similarity_score = none →
        d.similarity_score = some v → extractScore d = some v)
    ∧ extractScore ⟨"success".data, none, none,
        some "The analysis finished. Calculated similarity: 42.5% overall.".data,
        none, none⟩ = some (85/2)
    ∧ (handleCheckWebSimilarity
        ⟨"Alice".data, none, true, false, false, [], false, none,
         some ⟨some 55, "Alice".data, "essay.txt".data, none, none, none⟩,
         none, none, ⟨some "submitted".data,
           some ⟨some 55, "Alice".data, "essay.txt".data, none, none, none⟩⟩⟩
        (.respond ⟨"success".data, none, none,
          some "The analysis finished. Calculated similarity: 42.5% overall.".data,
          none, none⟩)).1.similarityScore = some (85/2) := by
  have hfind : findCalcSim
      "The analysis finished. Calculated similarity: 42.5% overall.".data =
      some (['4', '2'], ['5']) := by decide
  have h1 : digitsToNat ['4', '2'] = 42 := by decide
  have h2 : digitsToNat ['5'] = 5 := by decide
  have hp : parseFloatCapture ['4', '2'] ['5'] = 85/2 := by
    simp only [parseFloatCapture, h1, h2]
    norm_num
  have he : extractScore ⟨"success".data, none, none,
      some "The analysis finished. Calculated similarity: 42.5% overall.".data,
      none, none⟩ = some (85/2) := by
    simp only [extractScore]
    rw [if_pos (by decide)]
    simp [hfind, hp]
  refine ⟨?_, ?_, he, ?_⟩
  · intro d v h
    simp [extractScore, h]
  · intro d v h1 h2
    simp [extractScore, h1, h2]
  · simp [handleCheckWebSimilarity, he, jsTruthyId, jsTruthyStr]

/-- Witness for C4: the first two precedence branches applied at
concrete responses. -/
theorem claimC4_precedence_witness :
    extractScore ⟨"success".data, some 81, some 12, none, none, none⟩ = some 81
    ∧ extractScore ⟨"success".data, none, some 12, none, none, none⟩ = some 12 :=
  ⟨claimC4_score_resolution_precedence.1 _ 81 rfl,
   claimC4_score_resolution_precedence.2.1 _ 12 rfl rfl⟩

/-- C1 counterexample: on a server response with a non-success status,
`handleRemove` keeps the local submitted flag and both persisted keys —
local state is not cleared for this server outcome. -/
theorem claimC1_nonsuccess_status_keeps_state :
    ((handleRemove
        ⟨"Alice".data, none, true, false, false, [], false, some 50,
         some ⟨some 55, "Alice".data, "essay.txt".data, some 50, none, none⟩,
         none, none, ⟨some "submitted".data,
           some ⟨some 55, "Alice".data, "essay.txt".data, some 50, none, none⟩⟩⟩
        (.respond "error".data none)).1.submitted = true)
    ∧ ((handleRemove
        ⟨"Alice".data, none, true, false, false, [], false, some 50,
         some ⟨some 55, "Alice".data, "essay.txt".data, some 50, none, none⟩,
         none, none, ⟨some "submitted".data,
           some ⟨some 55, "Alice".data, "essay.txt".data, some 50, none, none⟩⟩⟩
        (.respond "error".data none)).1.store.statusKey = some "submitted".data)
    ∧ ((handleRemove
        ⟨"Alice".data, none, true, false, false, [], false, some 50,
         some ⟨some 55, "Alice".data, "essay.txt".data, some 50, none, none⟩,
         none, none, ⟨some "submitted".data,
           some ⟨some 55, "Alice".data, "essay.txt".data, some 50, none, none⟩⟩⟩
        (.respond "error".data none)).1.store.dataKey.isSome = true) :=
  ⟨rfl, rfl, rfl⟩

/-- C1 as amended: for an existing submission, `handleRemove` clears the
persisted status and data keys and resets the view to the unsubmitted
state when the delete call succeeds and when it rejects; a non-success
server status instead keeps local state (see the counterexample). -/
theorem claimC1_remove_clears_on_success_and_reject (s : ADState) (sd : SubmissionData)
    (msucc mrej : Option (List Char))
    (hsd : s.submissionData = some sd) (hid : jsTruthyId sd.submission_id = true) :
    localSubmissionCleared (handleRemove s (.respond "success".data msucc)).1
    ∧ localSubmissionCleared (handleRemove s (.reject mrej)).1 := by
  constructor
  · simp [handleRemove, hsd, hid, clearLocalSubmission, localSubmissionCleared]
  · simp [handleRemove, hsd, hid, clearLocalSubmission, localSubmissionCleared]

/-- Witness for C1 (amended): a concrete submitted state, cleared both
under a success response and under a rejection. -/
theorem claimC1_remove_clears_witness :
    localSubmissionCleared (handleRemove
        ⟨"Alice".data, none, true, false, false, [], false, some 50,
         some ⟨some 55, "Alice".data, "essay.txt".data, some 50, none, none⟩,
         none, none, ⟨some "submitted".data,
           some ⟨some 55, "Alice".data, "essay.txt".data, some 50, none, none⟩⟩⟩
        (.respond "success".data none)).1
    ∧ localSubmissionCleared (handleRemove
        ⟨"Alice".data, none, true, false, false, [], false, some 50,
         some ⟨some 55, "Alice".data, "essay.txt".data, some 50, none, none⟩,
         none, none, ⟨some "submitted".data,
           some ⟨some 55, "Alice".data, "essay.txt".data, some 50, none, none⟩⟩⟩
        (.reject none)).1 :=
  claimC1_remove_clears_on_success_and_reject _ _ none none rfl (by decide)

/-! ## Claim theorems: lecturer grading view -/

/-- C7 counterexample: the grade input `"100.9"` denotes the number
100.9, which is greater than 100, yet the grading action accepts it
(no validation message, backend called) because validation happens on
`parseInt("100.9") = 100`. -/
theorem claimC7_fractional_grade_accepted :
    (gradeOnClick (some "100.9".data) (some "ok".data) 7 [] true).backendCalled = true
    ∧ (gradeOnClick (some "100.9".data) (some "ok".data) 7 [] true).alert = none
    ∧ jsParseInt "100.9".data = some 100
    ∧ (100.9 : ℚ) > 100 :=
  ⟨rfl, rfl, by decide, by norm_num⟩

/-- C7 as amended: for entered grade and feedback inputs, the grading
action is rejected client-side (validation message shown, no backend
call) exactly when `parseInt` of the grade input is NaN, negative, or
greater than 100 — the entered text is truncated to its leading integer
part before validation. -/
theorem claimC7_grade_rejected_iff_parseInt (g f : List Char) (sid : ℕ)
    (subs : List Submission) (serverOk : Bool) :
    ((gradeOnClick (some g) (some f) sid subs serverOk).backendCalled = false
      ∧ (gradeOnClick (some g) (some f) sid subs serverOk).alert =
          some "Please enter a valid grade between 0 and 100".data)
    ↔ (jsParseInt g = none ∨ ∃ v, jsParseInt g = some v ∧ (v < 0 ∨ v > 100)) := by
  cases h : jsParseInt g with
  | none => simp [gradeOnClick, h]
  | some v =>
    by_cases hv : v < 0 ∨ v > 100
    · simp [gradeOnClick, h, hv]
    · cases serverOk <;> simp [gradeOnClick, h, hv, handleGradeSubmission]

/-- C10: a successful grade call patches exactly the submissions whose
id matches — the list keeps its length and order, non-matching entries
are unchanged in place, and a matching entry only gets its grade,
feedback and `graded` status set. -/
theorem claimC10_grade_patch_frame (sid : ℕ) (g : ℤ) (f : List Char)
    (subs : List Submission) :
    ((handleGradeSubmission sid g f subs true).2.1.length = subs.length)
    ∧ (∀ (i : ℕ) (sub : Submission), subs[i]? = some sub → sub.id ≠ sid →
        (handleGradeSubmission sid g f subs true).2.1[i]? = some sub)
    ∧ (∀ (i : ℕ) (sub : Submission), subs[i]? = some sub → sub.id = sid →
        (handleGradeSubmission sid g f subs true).2.1[i]? =
          some { sub with grade := some g, feedback := some f, status := "graded".data }) := by
  refine ⟨?_, ?_, ?_⟩
  · simp [handleGradeSubmission, gradePatch]
  · intro i sub hsub hne
    simp [handleGradeSubmission, gradePatch, List.getElem?_map, hsub, hne]
  · intro i sub hsub heq
    simp [handleGradeSubmission, gradePatch, List.getElem?_map, hsub, heq]

/-- Witness for C10 on a two-element list: the entry with id 2 is
patched, the entry with id 1 is untouched. -/
theorem claimC10_grade_patch_witness :
    ((handleGradeSubmission 2 95 "good".data
        [⟨1, "A".data, "a.txt".data, "t1".data, none, none, "submitted".data, none⟩,
         ⟨2, "B".data, "b.txt".data, "t2".data, none, none, "submitted".data, none⟩]
        true).2.1[0]? =
      some ⟨1, "A".data, "a.txt".data, "t1".data, none, none, "submitted".data, none⟩)
    ∧ ((handleGradeSubmission 2 95 "good".data
        [⟨1, "A".data, "a.txt".data, "t1".data, none, none, "submitted".data, none⟩,
         ⟨2, "B".data, "b.txt".data, "t2".data, none, none, "submitted".data, none⟩]
        true).2.1[1]? =
      some ⟨2, "B".data, "b.txt".data, "t2".data, some 95, some "good".data,
        "graded".data, none⟩) :=
  ⟨(claimC10_grade_patch_frame 2 95 "good".data _).2.1 0
      ⟨1, "A".data, "a.txt".data, "t1".data, none, none, "submitted".data, none⟩
      rfl (by decide),
   (claimC10_grade_patch_frame 2 95 "good".data _).2.2 1
      ⟨2, "B".data, "b.txt".data, "t2".data, none, none, "submitted".data, none⟩
      rfl rfl⟩

/-! ## Claim theorems: results-table threshold filter -/

/-- C2 counterexample: a result carrying `web_similarity_score = 10` and
`similarity_score = 50` is not displayed at threshold 30, although the
spec's maximum formula gives `max = 50 ≥ 30` — the filter uses
first-truthy-wins (`||`), not the maximum. -/
theorem claimC2_or_chain_not_max :
    filterResults 30 (some [⟨some 10, some 50, none⟩]) = []
    ∧ specMaxScore ⟨some 10, some 50, none⟩ = 50
    ∧ (50 : ℚ) ≥ 30 := by
  refine ⟨?_, ?_, by norm_num⟩
  · have h : effectiveScore ⟨some 10, some 50, none⟩ = 10 := by
      norm_num [effectiveScore, jsOrNum]
    simp [filterResults, h]
    norm_num
  · norm_num [specMaxScore]

/-- C2 as amended: a result is displayed exactly when its effective
score — the first present and nonzero field among
`web_similarity_score`, `similarity_score`, `similarity`, else 0 —
is at least the threshold; the filter never invents rows. -/
theorem claimC2_threshold_filter_iff (t : ℚ) (rs : List CompResult) (r : CompResult)
    (hmem : r ∈ rs) :
    (r ∈ filterResults t (some rs) ↔ effectiveScore r ≥ t)
    ∧ ∀ x ∈ filterResults t (some rs), x ∈ rs := by
  constructor
  · simp [filterResults, List.mem_filter, hmem]
  · intro x hx
    exact (List.mem_filter.mp hx).1

/-- Witness for C2 (amended) at a singleton list and threshold 30. -/
theorem claimC2_threshold_filter_witness :
    ((⟨some 80, none, none⟩ : CompResult) ∈
        filterResults 30 (some [⟨some 80, none, none⟩]) ↔
      effectiveScore ⟨some 80, none, none⟩ ≥ 30)
    ∧ ∀ x ∈ filterResults 30 (some [(⟨some 80, none, none⟩ : CompResult)]),
        x ∈ [(⟨some 80, none, none⟩ : CompResult)] :=
  claimC2_threshold_filter_iff 30 _ _ (List.mem_singleton.mpr rfl)

end LMS
